import Mathlib

/-!
Shallow embedding of `conda_build/main_build.py` (the conda-build recipe
scheduler): the version-axis expansion loop, the work queue with
dependency rediscovery, temporary-directory cleanup and the
`already_built` list of the `execute` function, together with theorems
about the behaviour of those definitions.

Collaborator modules that the file imports (`conda_build.build`,
`conda_build.source`, `conda_build.metadata`, `conda.lock`, the package
index) are modelled as oracle fields of a `World` record: `execute` only
observes their success / failure and the strings they return.  Paths are
abstract names (`abspath` is the identity), `tempfile.mkdtemp` is a
deterministic fresh name derived from the archive path, and archive
extraction is assumed to succeed.  The `Locked` context manager, the
`delete_trash` / `check_external` preamble, the `config.noarch` flag and
all bare `print` calls either precede the modelled logic or have no
effect on it; prints that mark scheduling decisions are kept as `Event`
values so that orderings can be stated.
-/

namespace CondaBuild

/-- Python `s.replace('.', '')`: remove every dot. -/
def stripDots (s : String) : String :=
  String.mk (s.data.filter fun c => c ≠ '.')

/-- Digit-string to number, `'0'..'9'` only. -/
def digitsToNat (l : List Char) : Nat :=
  l.foldl (fun a c => a * 10 + (c.toNat - 48)) 0

/-- Python `int(s)` on the version strings this program feeds it: `some`
of the value when `s` is a plain decimal numeral, `none` when Python
would raise `ValueError`. -/
def pyInt (s : String) : Option Nat :=
  if s.data ≠ [] ∧ ∀ c ∈ s.data, c.isDigit then some (digitsToNat s.data) else none

/-- Whether the second list starts with the first one (structural
counterpart of Python's `str.startswith`, on character lists). -/
def listStartsWith : List Char → List Char → Bool
  | [], _ => true
  | _ :: _, [] => false
  | p :: ps, c :: cs => p = c && listStartsWith ps cs

/-- Whether the second list ends with the first one (Python
`str.endswith`). -/
def listEndsWith (p s : List Char) : Bool :=
  listStartsWith p.reverse s.reverse

/-- Characters after the first occurrence of the separator, `none` when
the separator does not occur. -/
def afterSep (sep : List Char) : List Char → Option (List Char)
  | [] => none
  | c :: cs =>
    if listStartsWith sep (c :: cs) then some (List.drop sep.length (c :: cs))
    else afterSep sep cs

/-- Characters before the first occurrence of the separator (the whole
list when the separator does not occur). -/
def untilSep (sep : List Char) : List Char → List Char
  | [] => []
  | c :: cs => if listStartsWith sep (c :: cs) then [] else c :: untilSep sep cs

/-- The archive-extension test of line 326:
`arg.endswith(('.tar', '.tar.gz', '.tgz', '.tar.bz2'))`. -/
def isTarArchiveName (s : String) : Bool :=
  listEndsWith ".tar".data s.data || listEndsWith ".tar.gz".data s.data ||
    listEndsWith ".tgz".data s.data || listEndsWith ".tar.bz2".data s.data

/-- Deterministic model of `tempfile.mkdtemp()` for the task `arg`. -/
def tempDirOf (arg : String) : String := "tmp-" ++ arg

/-- The four version axes of the build matrix (the `lang` loop variable). -/
inductive Lang
  | python
  | numpy
  | perl
  | R
deriving DecidableEq, Repr

/-- The `all_versions` table (lines 27-32). -/
def all_versions : Lang → Option (List Nat)
  | .python => some [26, 27, 33, 34]
  | .numpy  => some [16, 17, 18, 19]
  | .perl   => none
  | .R      => none

/-- The `conda_version` key table (lines 276-281). -/
def conda_version : Lang → String
  | .python => "CONDA_PY"
  | .numpy  => "CONDA_NPY"
  | .perl   => "CONDA_PERL"
  | .R      => "CONDA_R"

/-- Python truthiness of `all_versions[lang]` (`None` and `[]` are falsy). -/
def truthyVersions : Option (List Nat) → Bool
  | none => false
  | some l => !l.isEmpty

/-- The mutable global `conda_build.config.config` object, restricted to
the four version keys this file sets; `none` means the key still holds
whatever default the conda configuration gave it. -/
structure Config where
  CONDA_PY : Option Nat := none
  CONDA_NPY : Option Nat := none
  CONDA_PERL : Option Nat := none
  CONDA_R : Option Nat := none
deriving DecidableEq, Repr

/-- `setattr(config, conda_version[lang], version)` (line 301). -/
def setConfigVersion (cfg : Config) : Lang → Nat → Config
  | .python, v => { cfg with CONDA_PY := some v }
  | .numpy, v  => { cfg with CONDA_NPY := some v }
  | .perl, v   => { cfg with CONDA_PERL := some v }
  | .R, v      => { cfg with CONDA_R := some v }

/-- The per-axis value lists of the parsed arguments (`args.python` and
friends); an absent flag is the empty list (Python `None`, falsy). -/
structure VersionArgs where
  python : List String := []
  numpy : List String := []
  perl : List String := []
  R : List String := []
deriving DecidableEq, Repr

/-- `getattr(args, lang)` (line 284). -/
def getAxisValues : VersionArgs → Lang → List String
  | a, .python => a.python
  | a, .numpy => a.numpy
  | a, .perl => a.perl
  | a, .R => a.R

/-- `setattr(args, lang, l)` (lines 294, 297). -/
def setAxisValues : VersionArgs → Lang → List String → VersionArgs
  | a, .python, l => { a with python := l }
  | a, .numpy, l => { a with numpy := l }
  | a, .perl, l => { a with perl := l }
  | a, .R, l => { a with R := l }

/-- Errors that abort the version-axis loop: `parser.error` (line 291),
the width `RuntimeError` (lines 304-308), and the `ValueError` that
`int()` raises on a non-numeral (line 300, uncaught). -/
inductive ConfigFailure
  | parserError (msg : String)
  | runtimeError (msg : String)
  | valueError (numeral : String)
deriving DecidableEq, Repr

/-- Outcome of the version-axis loop of `execute` (lines 283-308):
`calls` lists, chronologically, the `config` states under which the body
after the loop (the scheduler) was entered; `cfg` is the final state of
the mutable global config; `err` is the first exception, raised after
the sub-runs in `calls` had already completed. -/
structure ExpandResult where
  calls : List Config
  cfg : Config
  err : Option ConfigFailure
deriving DecidableEq, Repr

/-- The iteration order of the axis loop: `['python', 'numpy', 'perl', 'R']`. -/
def axisOrder : List Lang := [.python, .numpy, .perl, .R]

/-- String rendering of Python `v / 10` for the two-digit axis values
(e.g. `34 / 10` prints as `3.4`), used in the width error message. -/
def tenthsRepr (v : Nat) : String :=
  Nat.repr (v / 10) ++ "." ++ Nat.repr (v % 10)

/-- The width error message of lines 304-308. -/
def widthErrorMsg (lang : Lang) (version : Nat) : String :=
  if truthyVersions (all_versions lang) then
    conda_version lang ++ " must be major.minor, like " ++
      tenthsRepr (((all_versions lang).getD []).getLastD 0) ++ ", not " ++ Nat.repr version
  else
    conda_version lang ++ " must be major.minor, not " ++ Nat.repr version

/-- `parser.error` message of line 291. -/
def allUnsupportedMsg (lang : Lang) : String :=
  match lang with
  | .python => "'all' is not supported for --python"
  | .numpy => "'all' is not supported for --numpy"
  | .perl => "'all' is not supported for --perl"
  | .R => "'all' is not supported for --R"

/-- Termination weight of one axis value list: a multi-value list must
be split into single-value recursive calls (weight 2), the `['all']`
sentinel with a truthy enumeration first expands to a multi-value list
(weight 1), anything else is processed in place (weight 0). -/
def axisWeight (lang : Lang) (vs : List String) : Nat :=
  if vs.length > 1 then 2
  else if vs = ["all"] ∧ truthyVersions (all_versions lang) then 1
  else 0

/-- Sum of the axis weights: the well-founded measure of the recursion
of `execute` into itself (line 295). -/
def argsMeasure (a : VersionArgs) : Nat :=
  axisWeight .python a.python + axisWeight .numpy a.numpy +
    axisWeight .perl a.perl + axisWeight .R a.R

theorem argsMeasure_setAxis (a : VersionArgs) (lang : Lang) (l : List String) :
    argsMeasure (setAxisValues a lang l) + axisWeight lang (getAxisValues a lang)
      = argsMeasure a + axisWeight lang l := by
  cases lang <;> simp [argsMeasure, setAxisValues, getAxisValues] <;> omega

theorem axisWeight_single_le (lang : Lang) (v : String) : axisWeight lang [v] ≤ 1 := by
  unfold axisWeight
  have h1 : ¬ ([v].length > 1) := by simp
  rw [if_neg h1]
  split <;> omega

theorem multiWeight (lang : Lang) (vs : List String) (hlen : vs.length > 1) (v : String) :
    axisWeight lang [v] < axisWeight lang vs := by
  have h2 : axisWeight lang vs = 2 := by simp [axisWeight, hlen]
  have := axisWeight_single_le lang v
  omega

theorem allWeight (lang : Lang) (vs : List String)
    (hall : vs = ["all"]) (htr : truthyVersions (all_versions lang) = true)
    (v : String) (hv : v ∈ ((all_versions lang).getD []).map Nat.repr) :
    axisWeight lang [v] < axisWeight lang vs := by
  have hw : axisWeight lang vs = 1 := by simp [axisWeight, hall, htr]
  rw [hw]
  have hvne : v ≠ "all" := by
    cases lang <;> simp [all_versions] at hv htr <;>
      (rcases hv with h | h | h | h) <;> subst h <;> decide
  have h1 : ¬ ([v].length > 1) := by simp
  simp [axisWeight, h1, hvne]

mutual

/-- Lines 283-308 of `execute`: the `for lang in [...]` loop over the
version axes, processed over the remaining axis list, threading the
mutable global config.  When the loop finishes, the scheduler body runs
once under the current config (`calls := [cfg]`).  A multi-value axis
re-enters `execute` from the top once per value (line 295) and then
returns without running the scheduler at this level (line 298). -/
def versionLoop : List Lang → VersionArgs → Config → ExpandResult
  | [], _, cfg => { calls := [cfg], cfg := cfg, err := none }
  | lang :: rest, args, cfg =>
    let vs := getAxisValues args lang
    if vs = [] then
      versionLoop rest args cfg
    else if hall : vs = ["all"] then
      if htr : truthyVersions (all_versions lang) then
        if _hlen : (((all_versions lang).getD []).map Nat.repr).length > 1 then
          subRuns (((all_versions lang).getD []).map Nat.repr) lang args cfg
            (fun v hv => allWeight lang (getAxisValues args lang) hall htr v hv)
        else
          versionSingle (((all_versions lang).getD []).map Nat.repr) lang rest args cfg
      else
        { calls := [], cfg := cfg, err := some (.parserError (allUnsupportedMsg lang)) }
    else if hlen : vs.length > 1 then
      subRuns vs lang args cfg
        (fun v _ => multiWeight lang (getAxisValues args lang) hlen v)
    else
      versionSingle vs lang rest args cfg
termination_by axes args _ => (argsMeasure args, 1, axes.length, 0)

/-- Lines 299-308: the single-value branch (`version = int(...)`, the
config write, the two-digit width check) followed by the next loop
iteration. -/
def versionSingle (vs : List String) (lang : Lang) (rest : List Lang)
    (args : VersionArgs) (cfg : Config) : ExpandResult :=
  match pyInt (stripDots (vs.headD "")) with
  | none => { calls := [], cfg := cfg, err := some (.valueError (stripDots (vs.headD ""))) }
  | some version =>
    let cfg' := setConfigVersion cfg lang version
    if (Nat.repr version).length ≠ 2 ∧ (lang = .python ∨ lang = .numpy) then
      { calls := [], cfg := cfg', err := some (.runtimeError (widthErrorMsg lang version)) }
    else
      versionLoop rest args cfg'
termination_by (argsMeasure args, 1, rest.length, 1)

/-- Lines 292-298: `for ver in versions[:]` — one recursive `execute`
per value with the axis pinned to that value; an exception from a
sub-run propagates, ending the loop (and the calls already made stay in
the trace). -/
def subRuns (vals : List String) (lang : Lang) (args : VersionArgs) (cfg : Config)
    (h : ∀ v ∈ vals, axisWeight lang [v] < axisWeight lang (getAxisValues args lang)) :
    ExpandResult :=
  match vals with
  | [] => { calls := [], cfg := cfg, err := none }
  | v :: more =>
    let r := versionLoop axisOrder (setAxisValues args lang [v]) cfg
    match r.err with
    | some e => { calls := r.calls, cfg := r.cfg, err := some e }
    | none =>
      let r2 := subRuns more lang args r.cfg (fun x hx => h x (List.mem_cons_of_mem v hx))
      { calls := r.calls ++ r2.calls, cfg := r2.cfg, err := r2.err }
termination_by (argsMeasure args, 0, vals.length, 0)
decreasing_by
  · have hv := h v (List.mem_cons_self v more)
    have hms := argsMeasure_setAxis args lang [v]
    exact Prod.Lex.left _ _ (by omega)
  · exact Prod.Lex.right _ (Prod.Lex.right _ (Prod.Lex.left _ _ (Nat.lt_succ_self _)))

end

/-! ## The work queue and dependency-discovery scheduler (lines 316-421) -/

/-- Result of `build.build(m, ...)` (line 381) as this file observes it:
success, or a `RuntimeError` carrying its message string.  (A failure of
any other exception class would simply propagate, like a `RuntimeError`
whose message matches neither dependency prefix.) -/
inductive BuildOutcome
  | ok
  | fail (errorStr : String)
deriving DecidableEq, Repr

/-- The filesystem and the collaborator modules, as oracles.  Recipe
metadata is keyed by the materialised recipe directory.  `buildResult`
also receives the current `already_built` list, because the outcome of a
real build changes once its dependencies have been built.  `cwdEntries`
is the working-directory listing that `glob` scans, in directory order;
`existsPath` is `os.path.exists`.  The dependency name is treated as a
literal string (real package names contain no glob metacharacters). -/
structure World where
  isfile : String → Bool
  isdir : String → Bool
  existsPath : String → Bool
  cwdEntries : List String
  yamlOk : String → Bool
  fieldsOk : String → Bool
  pkg_fn : String → String
  buildResult : String → List String → BuildOutcome
  testOk : String → Bool

/-- The `args` flags that steer the scheduler loop. -/
structure Flags where
  check : Bool := false
  skip_existing : Bool := false
  output : Bool := false
  test : Bool := false
  source : Bool := false
  notest : Bool := false
  build_only : Bool := false
  post : Bool := false
deriving DecidableEq, Repr

/-- Observable side effects of one loop iteration, in program order. -/
inductive Event
  | ignoredNonRecipe (arg : String)
  | extracted (arg : String) (dir : String)
  | skippedExisting (dir : String)
  | printedOutputPath (dir : String)
  | tested (dir : String)
  | sourceProvided (dir : String)
  | builtPkg (dir : String)
  | missingDepFound (dep : String) (candidate : String)
  | removedTempDir (dir : String)
  | uploadHandled (dir : String)
deriving DecidableEq, Repr

/-- Conditions that abort the whole run from inside the loop:
`sys.exit` calls, re-raised build errors, a failed test, and the
`IndexError` from `error_str.split(': ')[1]` on a payload-free message. -/
inductive FatalError
  | noSuchDirectory (dir : String)
  | yamlParsingExit (dir : String)
  | fieldsError (dir : String)
  | buildFailed (errorStr : String)
  | testFailed (dir : String)
  | depIndexError (errorStr : String)
deriving DecidableEq, Repr

/-- Outcome of one iteration of the `while recipes` loop. -/
inductive StepResult
  | next (queue : List String) (built : List String) (events : List Event)
  | fatal (err : FatalError) (events : List Event)
deriving DecidableEq, Repr

/-- First character class of the glob pattern `-[v0-9][0-9.]*`. -/
def globClass1 (c : Char) : Bool := c = 'v' || c.isDigit

/-- Second character class of the glob pattern `-[v0-9][0-9.]*`. -/
def globClass2 (c : Char) : Bool := c.isDigit || c = '.'

/-- Matcher for `glob(dep_pkg + '-[v0-9][0-9.]*')` (line 392): the name
is the dependency name, a dash, one character from `[v0-9]`, one
character from `[0-9.]`, then any (possibly empty) suffix. -/
def globSuffixMatch : List Char → List Char → Bool
  | [], name =>
    match name with
    | c :: c1 :: c2 :: _ => c = '-' && globClass1 c1 && globClass2 c2
    | _ => false
  | _ :: _, [] => false
  | d :: ds, c :: cs => d = c && globSuffixMatch ds cs

/-- String version of the candidate-directory glob match. -/
def globVersionMatch (dep name : String) : Bool :=
  globSuffixMatch dep.data name.data

/-- Lines 388-391: `dep_pkg = error_str.split(': ')[1]` (the segment
between the first `': '` and the next one or the end), then keep only
the token before the first space; `none` models the `IndexError` when
the message has no `': '` separator. -/
def depPackageName (errorStr : String) : Option String :=
  match afterSep [':', ' '] errorStr.data with
  | none => none
  | some tail =>
    let payload := untilSep [':', ' '] tail
    some (String.mk (if payload.any (fun c => c = ' ') then untilSep [' '] payload else payload))

/-- Lines 392-394: the glob candidates in directory order, then the
exactly-named entry when `os.path.exists(dep_pkg)`. -/
def depCandidates (w : World) (dep : String) : List String :=
  w.cwdEntries.filter (fun e => globVersionMatch dep e) ++
    (if w.existsPath dep then [dep] else [])

/-- Lines 386-387: the two message openings the handler recognises. -/
def isDepErrorStr (estr : String) : Bool :=
  listStartsWith "No packages found".data estr.data ||
    listStartsWith "Could not find some".data estr.data

/-- Lines 415-421, the tail of the loop body reached when the task is
terminal: remove the temporary directory when the materialisation was
temporary, run the upload step when a full build succeeded, and append
the package identifier to `already_built`. -/
def finishTask (w : World) (rest built : List String) (dir : String)
    (needCleanup upload : Bool) (evs : List Event) : StepResult :=
  .next rest (built ++ [w.pkg_fn dir])
    ((evs ++ (if needCleanup then [Event.removedTempDir dir] else [])) ++
      (if upload then [Event.uploadHandled dir] else []))

/-- Lines 339-421 on a materialised recipe directory: the `isdir` guard,
metadata parsing and validation, the check / skip-existing / output /
test / source / build dispatch, the dependency-rediscovery handler and
the terminal tail.  (`if args.check and len(args.recipe) > 1` only
prints; `build_only` / `post` force `args.notest = True`, an idempotent
mutation folded into `effNotest`.) -/
def stepResolved (w : World) (f : Flags) (index : List String)
    (arg : String) (rest built : List String)
    (dir : String) (needCleanup : Bool) (evs0 : List Event) : StepResult :=
  if !w.isdir dir then .fatal (.noSuchDirectory dir) evs0
  else if !w.yamlOk dir then .fatal (.yamlParsingExit dir) evs0
  else if !w.fieldsOk dir then .fatal (.fieldsError dir) evs0
  else if f.check then .next rest built evs0
  else if f.skip_existing ∧ (w.pkg_fn dir ∈ index ∨ w.pkg_fn dir ∈ built) then
    .next rest built (evs0 ++ [Event.skippedExisting dir])
  else if f.output then .next rest built (evs0 ++ [Event.printedOutputPath dir])
  else if f.test then
    if w.testOk dir then
      finishTask w rest built dir needCleanup false (evs0 ++ [Event.tested dir])
    else .fatal (.testFailed dir) evs0
  else if f.source then
    finishTask w rest built dir needCleanup false (evs0 ++ [Event.sourceProvided dir])
  else
    match w.buildResult dir built with
    | .ok =>
      if !(f.notest || f.build_only || f.post) && !w.testOk dir then
        .fatal (.testFailed dir) (evs0 ++ [Event.builtPkg dir])
      else
        finishTask w rest built dir needCleanup true
          (evs0 ++ [Event.builtPkg dir] ++
            (if !(f.notest || f.build_only || f.post) then [Event.tested dir] else []))
    | .fail estr =>
      if isDepErrorStr estr then
        match depPackageName estr with
        | none => .fatal (.depIndexError estr) evs0
        | some dep =>
          if (depCandidates w dep).isEmpty then .fatal (.buildFailed estr) evs0
          else
            .next ((depCandidates w dep).foldl (fun q c => c :: q) (arg :: rest)) built
              (evs0 ++ (depCandidates w dep).map (fun c => Event.missingDepFound dep c))
      else .fatal (.buildFailed estr) evs0

/-- Lines 320-337 plus the rest of the body: pop one task, materialise
it (directory used directly, archive extracted into a temporary
directory, anything else ignored), then process the resolved recipe. -/
def processTask (w : World) (f : Flags) (index : List String)
    (arg : String) (rest built : List String) : StepResult :=
  if w.isfile arg then
    if isTarArchiveName arg then
      stepResolved w f index arg rest built (tempDirOf arg) true
        [Event.extracted arg (tempDirOf arg)]
    else .next rest built [Event.ignoredNonRecipe arg]
  else
    stepResolved w f index arg rest built arg false []

/-- Outcome of the whole `while recipes` loop.  `fatal` keeps the tasks
that were still pending (never attempted) when the run aborted;
`outOfFuel` marks an execution that did not terminate within the given
number of iterations. -/
inductive RunResult
  | finished (built : List String) (events : List Event)
  | fatal (err : FatalError) (pending : List String) (built : List String) (events : List Event)
  | outOfFuel (queue : List String) (built : List String) (events : List Event)
deriving DecidableEq, Repr

/-- The `while recipes` loop (line 319), fuelled: one unit of fuel per
iteration. -/
def runQueue (w : World) (f : Flags) (index : List String) :
    Nat → List String → List String → List Event → RunResult
  | _, [], built, evs => .finished built evs
  | 0, q, built, evs => .outOfFuel q built evs
  | fuel + 1, arg :: rest, built, evs =>
    match processTask w f index arg rest built with
    | .next q2 built2 es => runQueue w f index fuel q2 built2 (evs ++ es)
    | .fatal err es => .fatal err rest built (evs ++ es)

/-- A run-aborting error of the full invocation: either from the
version-axis loop or from inside a scheduler sub-run. -/
inductive RunError
  | config (e : ConfigFailure)
  | fatal (e : FatalError)
deriving DecidableEq, Repr

/-- One scheduler sub-run per config produced by the version-axis loop,
in order, stopping at the first fatal sub-run (its exception propagates
through the recursive `execute` calls).  Each sub-run re-seeds the queue
from `args.recipe` and starts a fresh `already_built` list. -/
def execSubRuns (w : World) (f : Flags) (index recipes : List String) (fuel : Nat) :
    List Config → List (Config × RunResult) × Option FatalError
  | [] => ([], none)
  | cfg :: more =>
    match runQueue w f index fuel recipes [] [] with
    | .fatal err p b e => ([(cfg, .fatal err p b e)], some err)
    | r =>
      let rest := execSubRuns w f index recipes fuel more
      ((cfg, r) :: rest.1, rest.2)

/-- The whole of `execute`: version-axis expansion composed with the
scheduler sub-runs.  A fatal scheduler error pre-empts any version-axis
error that would have been raised later. -/
def executeFull (w : World) (f : Flags) (index recipes : List String) (fuel : Nat)
    (args : VersionArgs) : List (Config × RunResult) × Option RunError :=
  let er := versionLoop axisOrder args {}
  let rs := execSubRuns w f index recipes fuel er.calls
  (rs.1, match rs.2 with
    | some e => some (.fatal e)
    | none => er.err.map .config)

/-! ## Shared lemmas -/

theorem foldl_cons_reverse {α : Type} (l : List α) (init : List α) :
    l.foldl (fun q c => c :: q) init = l.reverse ++ init := by
  induction l generalizing init with
  | nil => simp
  | cons x xs ih => simp [List.foldl_cons, ih]

/-! ## Claim worlds -/

/-- World of the spec's `[A, B]` scenario: every task is a directory
recipe named after its package, building `A` raises the
dependency-unsatisfied `RuntimeError` for `C` until `C` has been built,
and an entry exactly named `C` exists in the working directory. -/
def w1 : World where
  isfile := fun _ => false
  isdir := fun _ => true
  existsPath := fun p => p = "C"
  cwdEntries := []
  yamlOk := fun _ => true
  fieldsOk := fun _ => true
  pkg_fn := fun d => d
  buildResult := fun d built =>
    if d = "A" && !built.contains "C" then .fail "No packages found: C" else .ok
  testOk := fun _ => true

/-- Like `w1` but nothing satisfying the dependency is discoverable:
no glob match, no exactly-named entry. -/
def w6 : World where
  isfile := fun _ => false
  isdir := fun _ => true
  existsPath := fun _ => false
  cwdEntries := []
  yamlOk := fun _ => true
  fieldsOk := fun _ => true
  pkg_fn := fun d => d
  buildResult := fun d _ => if d = "A" then .fail "No packages found: C" else .ok
  testOk := fun _ => true

/-! ## C1 -/

/-- C1: when building a task raises a dependency-unsatisfied condition
and candidate recipe directories are discovered, the scheduler pushes
the original task back onto the front of the queue and then pushes each
candidate ahead of it in discovery order (so the resulting queue is the
reversed candidate list, then the original task, then the untouched
remainder — every candidate precedes the original task and later tasks
keep their position after it); concretely, for tasks `[A, B]` where `A`
needs `C` and a single candidate directory `C` exists, the processing
order is `[C, A, B]`. -/
theorem dep_requeue_order
    (w : World) (f : Flags) (index : List String) (arg : String)
    (rest built : List String) (estr dep : String)
    (hfile : w.isfile arg = false) (hdir : w.isdir arg = true)
    (hyaml : w.yamlOk arg = true) (hfields : w.fieldsOk arg = true)
    (hcheck : f.check = false)
    (hskip : f.skip_existing = false)
    (hout : f.output = false) (htest : f.test = false) (hsrc : f.source = false)
    (hbuild : w.buildResult arg built = .fail estr)
    (hdep : isDepErrorStr estr = true)
    (hname : depPackageName estr = some dep)
    (hcand : depCandidates w dep ≠ []) :
    processTask w f index arg rest built =
      .next ((depCandidates w dep).reverse ++ arg :: rest) built
        ((depCandidates w dep).map (fun c => Event.missingDepFound dep c))
    ∧ runQueue w1 {} [] 10 ["A", "B"] [] [] =
        .finished ["C", "A", "B"]
          [Event.missingDepFound "C" "C",
           Event.builtPkg "C", Event.tested "C", Event.uploadHandled "C",
           Event.builtPkg "A", Event.tested "A", Event.uploadHandled "A",
           Event.builtPkg "B", Event.tested "B", Event.uploadHandled "B"] := by
  constructor
  · have hne : (depCandidates w dep).isEmpty = false := by
      cases hc : depCandidates w dep with
      | nil => exact absurd hc hcand
      | cons a l => simp
    simp [processTask, stepResolved, hfile, hdir, hyaml, hfields, hcheck, hskip,
      hout, htest, hsrc, hbuild, hdep, hname, hne, foldl_cons_reverse]
  · rfl

theorem dep_requeue_order_witness :
    processTask w1 {} [] "A" ["B"] [] =
      .next ((depCandidates w1 "C").reverse ++ "A" :: ["B"]) []
        ((depCandidates w1 "C").map (fun c => Event.missingDepFound "C" c)) :=
  (dep_requeue_order w1 {} [] "A" ["B"] [] "No packages found: C" "C"
    rfl rfl rfl rfl rfl rfl rfl rfl rfl rfl rfl rfl (by decide)).1

/-! ## C3 and C9 -/

/-- World in which every recipe directory holds the same package `P` and
always builds successfully. -/
def w3 : World where
  isfile := fun _ => false
  isdir := fun _ => true
  existsPath := fun _ => false
  cwdEntries := []
  yamlOk := fun _ => true
  fieldsOk := fun _ => true
  pkg_fn := fun _ => "P"
  buildResult := fun _ _ => .ok
  testOk := fun _ => true

theorem stepResolved_built_shape (w : World) (f : Flags) (index : List String)
    (arg : String) (rest built : List String) (dir : String) (nc : Bool)
    (evs0 : List Event) (q2 b2 : List String) (evs : List Event)
    (h : stepResolved w f index arg rest built dir nc evs0 = .next q2 b2 evs) :
    b2 = built ∨ b2 = built ++ [w.pkg_fn dir] := by
  unfold stepResolved finishTask at h
  by_cases c1 : (!w.isdir dir) = true
  · rw [if_pos c1] at h; exact absurd h (by simp)
  rw [if_neg c1] at h
  by_cases c2 : (!w.yamlOk dir) = true
  · rw [if_pos c2] at h; exact absurd h (by simp)
  rw [if_neg c2] at h
  by_cases c3 : (!w.fieldsOk dir) = true
  · rw [if_pos c3] at h; exact absurd h (by simp)
  rw [if_neg c3] at h
  by_cases c4 : f.check = true
  · rw [if_pos c4] at h; injection h with h1 h2 h3; exact Or.inl h2.symm
  rw [if_neg c4] at h
  by_cases c5 : f.skip_existing = true ∧ (w.pkg_fn dir ∈ index ∨ w.pkg_fn dir ∈ built)
  · rw [if_pos c5] at h; injection h with h1 h2 h3; exact Or.inl h2.symm
  rw [if_neg c5] at h
  by_cases c6 : f.output = true
  · rw [if_pos c6] at h; injection h with h1 h2 h3; exact Or.inl h2.symm
  rw [if_neg c6] at h
  by_cases c7 : f.test = true
  · rw [if_pos c7] at h
    by_cases c8 : w.testOk dir = true
    · rw [if_pos c8] at h; injection h with h1 h2 h3; exact Or.inr h2.symm
    · rw [if_neg c8] at h; exact absurd h (by simp)
  rw [if_neg c7] at h
  by_cases c9 : f.source = true
  · rw [if_pos c9] at h; injection h with h1 h2 h3; exact Or.inr h2.symm
  rw [if_neg c9] at h
  cases hbr : w.buildResult dir built with
  | ok =>
    simp only [hbr] at h
    by_cases c10 : (!(f.notest || f.build_only || f.post) && !w.testOk dir) = true
    · rw [if_pos c10] at h; exact absurd h (by simp)
    · rw [if_neg c10] at h; injection h with h1 h2 h3; exact Or.inr h2.symm
  | fail estr =>
    simp only [hbr] at h
    by_cases c11 : isDepErrorStr estr = true
    · rw [if_pos c11] at h
      cases hdp : depPackageName estr with
      | none => simp only [hdp] at h; exact absurd h (by simp)
      | some dep =>
        simp only [hdp] at h
        by_cases c12 : (depCandidates w dep).isEmpty = true
        · rw [if_pos c12] at h; exact absurd h (by simp)
        · rw [if_neg c12] at h; injection h with h1 h2 h3; exact Or.inl h2.symm
    · rw [if_neg c11] at h; exact absurd h (by simp)

/-- C3 amended: when the skip-existing policy is active, the
`already_built` list is consulted before the action dispatch, so a task
whose package identifier is already in the list is skipped without any
build; and the list is append-only — every loop iteration that continues
leaves it unchanged or extends it at the end (it never shrinks). -/
theorem already_built_skip_and_mono
    (w : World) (f : Flags) (index : List String)
    (arg : String) (rest built : List String) :
    (f.skip_existing = true → w.isfile arg = false → w.isdir arg = true →
      w.yamlOk arg = true → w.fieldsOk arg = true → f.check = false →
      w.pkg_fn arg ∈ built →
      processTask w f index arg rest built = .next rest built [Event.skippedExisting arg])
    ∧ (∀ q2 b2 evs, processTask w f index arg rest built = .next q2 b2 evs →
        ∃ t, b2 = built ++ t) := by
  constructor
  · intro hskip hfile hdir hyaml hfields hcheck hmem
    unfold processTask stepResolved
    rw [if_neg (by simp [hfile]), if_neg (by simp [hdir]), if_neg (by simp [hyaml]),
      if_neg (by simp [hfields]), if_neg (by simp [hcheck]),
      if_pos ⟨hskip, Or.inr hmem⟩]
    simp
  · intro q2 b2 evs h
    unfold processTask at h
    by_cases c1 : w.isfile arg = true
    · rw [if_pos c1] at h
      by_cases c2 : isTarArchiveName arg = true
      · rw [if_pos c2] at h
        rcases stepResolved_built_shape w f index arg rest built (tempDirOf arg) true
          _ q2 b2 evs h with h2 | h2
        · exact ⟨[], by simp [h2]⟩
        · exact ⟨_, h2⟩
      · rw [if_neg c2] at h
        injection h with h1 h2 h3
        exact ⟨[], by simp [← h2]⟩
    · rw [if_neg c1] at h
      rcases stepResolved_built_shape w f index arg rest built arg false
        _ q2 b2 evs h with h2 | h2
      · exact ⟨[], by simp [h2]⟩
      · exact ⟨_, h2⟩

theorem already_built_skip_and_mono_witness :
    processTask w3 { skip_existing := true } [] "A" [] ["P"] =
      .next [] ["P"] [Event.skippedExisting "A"] :=
  (already_built_skip_and_mono w3 { skip_existing := true } [] "A" [] ["P"]).1
    rfl rfl rfl rfl rfl rfl (by decide)

/-- C3 counterexample: with skip-existing inactive the `already_built`
list is never consulted — the same recipe supplied twice is built twice,
so a package identifier already completed in the run is rebuilt. -/
theorem rebuild_despite_already_built :
    runQueue w3 {} [] 10 ["A", "A"] [] [] =
      .finished ["P", "P"]
        [Event.builtPkg "A", Event.tested "A", Event.uploadHandled "A",
         Event.builtPkg "A", Event.tested "A", Event.uploadHandled "A"]
    ∧ List.count (Event.builtPkg "A")
        [Event.builtPkg "A", Event.tested "A", Event.uploadHandled "A",
         Event.builtPkg "A", Event.tested "A", Event.uploadHandled "A"] = 2 := by
  constructor
  · rfl
  · decide

/-- C9: a task processed in test-only mode (and likewise in
source-fetch-only mode) reaches the terminal tail of the loop body, so
its package identifier is appended to `already_built` exactly as after a
full build; consequently, with skip-existing active, a later task with
the same identifier is skipped as already built even though it was never
built — concretely, in test mode with tasks `[A, B]` both naming package
`P`, the run tests `A` and then skips `B`. -/
theorem test_mode_marks_built
    (w : World) (f : Flags) (index : List String)
    (arg : String) (rest built : List String)
    (hfile : w.isfile arg = false) (hdir : w.isdir arg = true)
    (hyaml : w.yamlOk arg = true) (hfields : w.fieldsOk arg = true)
    (hcheck : f.check = false)
    (hskipc : ¬(f.skip_existing = true ∧ (w.pkg_fn arg ∈ index ∨ w.pkg_fn arg ∈ built)))
    (hout : f.output = false) :
    (f.test = true → w.testOk arg = true →
      processTask w f index arg rest built =
        .next rest (built ++ [w.pkg_fn arg]) [Event.tested arg])
    ∧ (f.test = false → f.source = true →
      processTask w f index arg rest built =
        .next rest (built ++ [w.pkg_fn arg]) [Event.sourceProvided arg])
    ∧ runQueue w3 { skip_existing := true, test := true } [] 10 ["A", "B"] [] [] =
        .finished ["P"] [Event.tested "A", Event.skippedExisting "B"] := by
  refine ⟨?_, ?_, rfl⟩
  · intro htest htOk
    unfold processTask stepResolved finishTask
    rw [if_neg (by simp [hfile]), if_neg (by simp [hdir]), if_neg (by simp [hyaml]),
      if_neg (by simp [hfields]), if_neg (by simp [hcheck]), if_neg hskipc,
      if_neg (by simp [hout]), if_pos htest, if_pos htOk]
    simp
  · intro htest hsrc
    unfold processTask stepResolved finishTask
    rw [if_neg (by simp [hfile]), if_neg (by simp [hdir]), if_neg (by simp [hyaml]),
      if_neg (by simp [hfields]), if_neg (by simp [hcheck]), if_neg hskipc,
      if_neg (by simp [hout]), if_neg (by simp [htest]), if_pos hsrc]
    simp

theorem test_mode_marks_built_witness :
    processTask w3 { test := true } [] "A" ["B"] [] =
      .next ["B"] ["P"] [Event.tested "A"] :=
  (test_mode_marks_built w3 { test := true } [] "A" ["B"] []
    rfl rfl rfl rfl rfl (by decide) rfl).1 rfl rfl

/-! ## C6 -/

/-- C6: when building a task raises a dependency-unsatisfied condition
and no candidate recipe directory is discoverable, the condition is
re-raised and the run aborts: the result is fatal with the original
error string, the remaining queue is left pending and untouched, and no
further event is emitted; concretely, with tasks `[A, B]` where `A`
needs the undiscoverable `C`, the run ends fatally and `B` is never
attempted. -/
theorem dep_unsatisfied_fatal
    (w : World) (f : Flags) (index : List String) (arg : String)
    (rest built : List String) (evs : List Event) (fuel : Nat) (estr dep : String)
    (hfile : w.isfile arg = false) (hdir : w.isdir arg = true)
    (hyaml : w.yamlOk arg = true) (hfields : w.fieldsOk arg = true)
    (hcheck : f.check = false)
    (hskip : f.skip_existing = false)
    (hout : f.output = false) (htest : f.test = false) (hsrc : f.source = false)
    (hbuild : w.buildResult arg built = .fail estr)
    (hdep : isDepErrorStr estr = true)
    (hname : depPackageName estr = some dep)
    (hcand : depCandidates w dep = []) :
    runQueue w f index (fuel + 1) (arg :: rest) built evs =
      .fatal (.buildFailed estr) rest built evs
    ∧ runQueue w6 {} [] 10 ["A", "B"] [] [] =
        .fatal (.buildFailed "No packages found: C") ["B"] [] [] := by
  constructor
  · have hstep : processTask w f index arg rest built = .fatal (.buildFailed estr) [] := by
      simp [processTask, stepResolved, hfile, hdir, hyaml, hfields, hcheck, hskip,
        hout, htest, hsrc, hbuild, hdep, hname, hcand]
    simp [runQueue, hstep]
  · rfl

/-! ## C2 -/

/-- World in which the sole task is an archive that extracts fine but
whose build raises an ordinary (non-dependency) `RuntimeError`. -/
def w2 : World where
  isfile := fun p => p = "a.tar.gz"
  isdir := fun _ => true
  existsPath := fun _ => false
  cwdEntries := []
  yamlOk := fun _ => true
  fieldsOk := fun _ => true
  pkg_fn := fun _ => "P"
  buildResult := fun d _ => if d = tempDirOf "a.tar.gz" then .fail "compile error" else .ok
  testOk := fun _ => true

/-- Like `w2` but the build succeeds. -/
def w2ok : World := { w2 with buildResult := fun _ _ => .ok }

theorem stepResolved_next_removed (w : World) (f : Flags) (index : List String)
    (arg : String) (rest built : List String) (dir : String) (nc : Bool)
    (evs0 : List Event) (q2 b2 : List String) (evs : List Event) (d : String)
    (h0 : Event.removedTempDir d ∉ evs0)
    (h : stepResolved w f index arg rest built dir nc evs0 = .next q2 b2 evs) :
    (Event.removedTempDir d ∈ evs ↔ (nc = true ∧ d = dir ∧ b2 ≠ built)) := by
  unfold stepResolved finishTask at h
  by_cases c1 : (!w.isdir dir) = true
  · rw [if_pos c1] at h; exact absurd h (by simp)
  rw [if_neg c1] at h
  by_cases c2 : (!w.yamlOk dir) = true
  · rw [if_pos c2] at h; exact absurd h (by simp)
  rw [if_neg c2] at h
  by_cases c3 : (!w.fieldsOk dir) = true
  · rw [if_pos c3] at h; exact absurd h (by simp)
  rw [if_neg c3] at h
  by_cases c4 : f.check = true
  · rw [if_pos c4] at h
    injection h with h1 h2 h3; subst h2; subst h3; simp_all
  rw [if_neg c4] at h
  by_cases c5 : f.skip_existing = true ∧ (w.pkg_fn dir ∈ index ∨ w.pkg_fn dir ∈ built)
  · rw [if_pos c5] at h
    injection h with h1 h2 h3; subst h2; subst h3; simp_all
  rw [if_neg c5] at h
  by_cases c6 : f.output = true
  · rw [if_pos c6] at h
    injection h with h1 h2 h3; subst h2; subst h3; simp_all
  rw [if_neg c6] at h
  by_cases c7 : f.test = true
  · rw [if_pos c7] at h
    by_cases c8 : w.testOk dir = true
    · rw [if_pos c8] at h
      injection h with h1 h2 h3; subst h2; subst h3
      cases nc <;> simp_all
    · rw [if_neg c8] at h; exact absurd h (by simp)
  rw [if_neg c7] at h
  by_cases c9 : f.source = true
  · rw [if_pos c9] at h
    injection h with h1 h2 h3; subst h2; subst h3
    cases nc <;> simp_all
  rw [if_neg c9] at h
  cases hbr : w.buildResult dir built with
  | ok =>
    simp only [hbr] at h
    by_cases c10 : (!(f.notest || f.build_only || f.post) && !w.testOk dir) = true
    · rw [if_pos c10] at h; exact absurd h (by simp)
    rw [if_neg c10] at h
    injection h with h1 h2 h3; subst h2; subst h3
    cases nc <;> simp_all
  | fail estr =>
    simp only [hbr] at h
    by_cases c11 : isDepErrorStr estr = true
    · rw [if_pos c11] at h
      cases hdp : depPackageName estr with
      | none => simp only [hdp] at h; exact absurd h (by simp)
      | some dep =>
        simp only [hdp] at h
        by_cases c12 : (depCandidates w dep).isEmpty = true
        · rw [if_pos c12] at h; exact absurd h (by simp)
        rw [if_neg c12] at h
        injection h with h1 h2 h3; subst h2; subst h3; simp_all
    · rw [if_neg c11] at h; exact absurd h (by simp)

theorem stepResolved_fatal_removed (w : World) (f : Flags) (index : List String)
    (arg : String) (rest built : List String) (dir : String) (nc : Bool)
    (evs0 : List Event) (err : FatalError) (evs : List Event) (d : String)
    (h0 : Event.removedTempDir d ∉ evs0)
    (h : stepResolved w f index arg rest built dir nc evs0 = .fatal err evs) :
    Event.removedTempDir d ∉ evs := by
  unfold stepResolved finishTask at h
  by_cases c1 : (!w.isdir dir) = true
  · rw [if_pos c1] at h; injection h with h1 h2; subst h2; simp_all
  rw [if_neg c1] at h
  by_cases c2 : (!w.yamlOk dir) = true
  · rw [if_pos c2] at h; injection h with h1 h2; subst h2; simp_all
  rw [if_neg c2] at h
  by_cases c3 : (!w.fieldsOk dir) = true
  · rw [if_pos c3] at h; injection h with h1 h2; subst h2; simp_all
  rw [if_neg c3] at h
  by_cases c4 : f.check = true
  · rw [if_pos c4] at h; exact absurd h (by simp)
  rw [if_neg c4] at h
  by_cases c5 : f.skip_existing = true ∧ (w.pkg_fn dir ∈ index ∨ w.pkg_fn dir ∈ built)
  · rw [if_pos c5] at h; exact absurd h (by simp)
  rw [if_neg c5] at h
  by_cases c6 : f.output = true
  · rw [if_pos c6] at h; exact absurd h (by simp)
  rw [if_neg c6] at h
  by_cases c7 : f.test = true
  · rw [if_pos c7] at h
    by_cases c8 : w.testOk dir = true
    · rw [if_pos c8] at h; exact absurd h (by simp)
    · rw [if_neg c8] at h; injection h with h1 h2; subst h2; simp_all
  rw [if_neg c7] at h
  by_cases c9 : f.source = true
  · rw [if_pos c9] at h; exact absurd h (by simp)
  rw [if_neg c9] at h
  cases hbr : w.buildResult dir built with
  | ok =>
    simp only [hbr] at h
    by_cases c10 : (!(f.notest || f.build_only || f.post) && !w.testOk dir) = true
    · rw [if_pos c10] at h; injection h with h1 h2; subst h2; simp_all
    · rw [if_neg c10] at h; exact absurd h (by simp)
  | fail estr =>
    simp only [hbr] at h
    by_cases c11 : isDepErrorStr estr = true
    · rw [if_pos c11] at h
      cases hdp : depPackageName estr with
      | none => simp only [hdp] at h; injection h with h1 h2; subst h2; simp_all
      | some dep =>
        simp only [hdp] at h
        by_cases c12 : (depCandidates w dep).isEmpty = true
        · rw [if_pos c12] at h; injection h with h1 h2; subst h2; simp_all
        · rw [if_neg c12] at h; exact absurd h (by simp)
    · rw [if_neg c11] at h; injection h with h1 h2; subst h2; simp_all

/-- C2 amended: on an iteration that hands control back to the loop, the
temporary directory of the task is removed exactly when the task was a
temporary materialisation (an extracted archive) and its pipeline ran to
the terminal tail of the loop body (observable as the package identifier
having been appended); an iteration that aborts the run removes no
directory, and a non-temporary materialisation is never removed. -/
theorem tempdir_cleanup
    (w : World) (f : Flags) (index : List String)
    (arg : String) (rest built : List String) (d : String) :
    (∀ q2 b2 evs, processTask w f index arg rest built = .next q2 b2 evs →
      (Event.removedTempDir d ∈ evs ↔
        (w.isfile arg = true ∧ isTarArchiveName arg = true ∧
          d = tempDirOf arg ∧ b2 ≠ built)))
    ∧ (∀ err evs, processTask w f index arg rest built = .fatal err evs →
        Event.removedTempDir d ∉ evs) := by
  constructor
  · intro q2 b2 evs h
    unfold processTask at h
    by_cases c1 : w.isfile arg = true
    · rw [if_pos c1] at h
      by_cases c2 : isTarArchiveName arg = true
      · rw [if_pos c2] at h
        rw [stepResolved_next_removed w f index arg rest built (tempDirOf arg) true
          _ q2 b2 evs d (by simp) h]
        simp_all
      · rw [if_neg c2] at h
        injection h with h1 h2 h3
        subst h3
        simp_all
    · rw [if_neg c1] at h
      rw [stepResolved_next_removed w f index arg rest built arg false
        _ q2 b2 evs d (by simp) h]
      simp_all
  · intro err evs h
    unfold processTask at h
    by_cases c1 : w.isfile arg = true
    · rw [if_pos c1] at h
      by_cases c2 : isTarArchiveName arg = true
      · rw [if_pos c2] at h
        exact stepResolved_fatal_removed w f index arg rest built (tempDirOf arg) true
          _ err evs d (by simp) h
      · rw [if_neg c2] at h
        exact absurd h (by simp)
    · rw [if_neg c1] at h
      exact stepResolved_fatal_removed w f index arg rest built arg false
        _ err evs d (by simp) h

theorem tempdir_cleanup_witness :
    Event.removedTempDir (tempDirOf "a.tar.gz") ∈
      [Event.extracted "a.tar.gz" (tempDirOf "a.tar.gz"),
       Event.builtPkg (tempDirOf "a.tar.gz"), Event.tested (tempDirOf "a.tar.gz"),
       Event.removedTempDir (tempDirOf "a.tar.gz"),
       Event.uploadHandled (tempDirOf "a.tar.gz")] :=
  ((tempdir_cleanup w2ok {} [] "a.tar.gz" [] [] (tempDirOf "a.tar.gz")).1
    [] ["P"] _ rfl).mpr ⟨rfl, rfl, rfl, by decide⟩

/-- C2 counterexample: a temporary materialisation whose build fails has
its action pipeline complete (with an error), yet no temporary directory
is ever removed — the fatal result carries only the extraction event, so
cleanup is not attempted on this exit path. -/
theorem tempdir_leak_on_failure :
    runQueue w2 {} [] 10 ["a.tar.gz"] [] [] =
      .fatal (.buildFailed "compile error") [] []
        [Event.extracted "a.tar.gz" (tempDirOf "a.tar.gz")]
    ∧ Event.removedTempDir (tempDirOf "a.tar.gz") ∉
        [Event.extracted "a.tar.gz" (tempDirOf "a.tar.gz")] := by
  constructor
  · rfl
  · decide

theorem dep_unsatisfied_fatal_witness :
    runQueue w6 {} [] 4 ["A", "B", "D"] [] [] =
      .fatal (.buildFailed "No packages found: C") ["B", "D"] [] [] :=
  (dep_unsatisfied_fatal w6 {} [] "A" ["B", "D"] [] [] 3 "No packages found: C" "C"
    rfl rfl rfl rfl rfl rfl rfl rfl rfl rfl rfl rfl (by decide)).1

/-! ## C7 -/

/-- Modelled from the spec words of C7 (for comparison only, not from
the source): the tail `v?[0-9][0-9.]*` read as a regular expression —
an optional `v`, one mandatory digit, then any run of digits and dots. -/
def specTailMatch : List Char → Bool
  | [] => false
  | c :: cs =>
    if c = 'v' then
      match cs with
      | [] => false
      | c1 :: cs1 => c1.isDigit && cs1.all (fun x => x.isDigit || x = '.')
    else c.isDigit && cs.all (fun x => x.isDigit || x = '.')

/-- Modelled from the spec words of C7: a name matching
`<dep>-v?[0-9][0-9.]*`. -/
def specDepMatch : List Char → List Char → Bool
  | [], name =>
    match name with
    | c :: cs => c = '-' && specTailMatch cs
    | [] => false
  | _ :: _, [] => false
  | d :: ds, c :: cs => d = c && specDepMatch ds cs

/-- String form of the claim's pattern. -/
def specDepPattern (dep name : String) : Bool := specDepMatch dep.data name.data

/-- World for the C7 counterexample: a directory `m-3` is present, task
`A` needs package `m`, and no entry named exactly `m` exists. -/
def w7 : World where
  isfile := fun _ => false
  isdir := fun _ => true
  existsPath := fun _ => false
  cwdEntries := ["m-3"]
  yamlOk := fun _ => true
  fieldsOk := fun _ => true
  pkg_fn := fun d => d
  buildResult := fun d _ => if d = "A" then .fail "No packages found: m" else .ok
  testOk := fun _ => true

/-- C7 counterexample: the directory name `m-3` matches the claimed
pattern `m-v?[0-9][0-9.]*` (optional `v`, one digit, any digit-dot tail),
yet the code's glob `m-[v0-9][0-9.]*` — which demands two characters
after the dash — rejects it: the candidate set is empty and the run goes
fatal instead of requeueing, so the code does not accept exactly the
claimed set. -/
theorem glob_narrower_than_claimed :
    specDepPattern "m" "m-3" = true
    ∧ globVersionMatch "m" "m-3" = false
    ∧ depCandidates w7 "m" = []
    ∧ processTask w7 {} [] "A" [] [] =
        .fatal (.buildFailed "No packages found: m") [] := by
  refine ⟨by decide, by decide, by decide, rfl⟩

theorem globSuffixMatch_iff (dep : List Char) : ∀ name : List Char,
    globSuffixMatch dep name = true ↔
      ∃ c1 c2 rest, name = dep ++ '-' :: c1 :: c2 :: rest
        ∧ globClass1 c1 = true ∧ globClass2 c2 = true := by
  induction dep with
  | nil =>
    intro name
    match name with
    | [] => simp [globSuffixMatch]
    | [c] => simp [globSuffixMatch]
    | [c, c1] => simp [globSuffixMatch]
    | c :: c1 :: c2 :: rest =>
      simp only [globSuffixMatch, List.nil_append, List.cons.injEq, Bool.and_eq_true,
        decide_eq_true_eq]
      constructor
      · rintro ⟨⟨hc, h1⟩, h2⟩
        exact ⟨c1, c2, rest, ⟨hc, rfl, rfl, rfl⟩, h1, h2⟩
      · rintro ⟨a, b, r, ⟨hc, ha, hb, hr⟩, h1, h2⟩
        subst ha; subst hb
        exact ⟨⟨hc, h1⟩, h2⟩
  | cons d ds ih =>
    intro name
    match name with
    | [] => simp [globSuffixMatch]
    | c :: cs =>
      simp only [globSuffixMatch, List.cons_append, List.cons.injEq, Bool.and_eq_true,
        decide_eq_true_eq, ih cs]
      constructor
      · rintro ⟨hdc, a, b, r, hcs, h1, h2⟩
        exact ⟨a, b, r, ⟨hdc.symm, hcs⟩, h1, h2⟩
      · rintro ⟨a, b, r, ⟨hdc, hcs⟩, h1, h2⟩
        exact ⟨hdc.symm, a, b, r, hcs, h1, h2⟩

/-- C7 amended: the bare dependency name is the token before the first
space of the payload field between the first `': '` and the next one (or
the end); the accepted candidates are exactly the working-directory
entries of the form `<dep>-` followed by one character from `{v,0-9}`,
one character from `{0-9,.}` and an arbitrary (possibly empty) suffix,
plus the entry exactly named `<dep>` when one exists — in particular a
bare one-character version suffix such as `<dep>-3` is not matched. -/
theorem dep_discovery_characterisation :
    (∀ dep name : String, globVersionMatch dep name = true ↔
      ∃ c1 c2 rest, name.data = dep.data ++ '-' :: c1 :: c2 :: rest
        ∧ globClass1 c1 = true ∧ globClass2 c2 = true)
    ∧ (∀ (w : World) (dep : String), depCandidates w dep =
        w.cwdEntries.filter (fun e => globVersionMatch dep e) ++
          (if w.existsPath dep then [dep] else []))
    ∧ depPackageName "Could not find some: foo >=1.2" = some "foo"
    ∧ depPackageName "No packages found: bar" = some "bar" :=
  ⟨fun dep name => globSuffixMatch_iff dep.data name.data,
   fun _ _ => rfl, by decide, by decide⟩

/-! ## C8 -/

/-- World exhibiting a dependency cycle: every build of `A` or of the
candidate directory `A-1.0` demands package `B`, every build of `B-1.0`
demands package `A`, and version-suffixed candidate directories for both
packages are always discoverable. -/
def w8 : World where
  isfile := fun _ => false
  isdir := fun _ => true
  existsPath := fun _ => false
  cwdEntries := ["A-1.0", "B-1.0"]
  yamlOk := fun _ => true
  fieldsOk := fun _ => true
  pkg_fn := fun d => d
  buildResult := fun d _ =>
    .fail ("No packages found: " ++ (if d = "A" || d = "A-1.0" then "B" else "A"))
  testOk := fun _ => true

theorem processTask_w8_A (rest built : List String) :
    processTask w8 {} [] "A" rest built =
      .next ("B-1.0" :: "A" :: rest) built [Event.missingDepFound "B" "B-1.0"] := rfl

theorem processTask_w8_Ac (rest built : List String) :
    processTask w8 {} [] "A-1.0" rest built =
      .next ("B-1.0" :: "A-1.0" :: rest) built [Event.missingDepFound "B" "B-1.0"] := rfl

theorem processTask_w8_Bc (rest built : List String) :
    processTask w8 {} [] "B-1.0" rest built =
      .next ("A-1.0" :: "B-1.0" :: rest) built [Event.missingDepFound "A" "A-1.0"] := rfl

theorem runQueue_w8_outOfFuel : ∀ (fuel : Nat) (q built : List String) (evs : List Event),
    q ≠ [] → (∀ x ∈ q, x = "A" ∨ x = "A-1.0" ∨ x = "B-1.0") →
    ∃ q2 b2 e2, runQueue w8 {} [] fuel q built evs = .outOfFuel q2 b2 e2 := by
  intro fuel
  induction fuel with
  | zero =>
    intro q built evs hq _
    match q, hq with
    | a :: rest, _ => exact ⟨a :: rest, built, evs, rfl⟩
  | succ n ih =>
    intro q built evs hq hmem
    match q with
    | a :: rest =>
      have hrest : ∀ x ∈ rest, x = "A" ∨ x = "A-1.0" ∨ x = "B-1.0" :=
        fun x hx => hmem x (List.mem_cons_of_mem a hx)
      rcases hmem a (List.mem_cons_self a rest) with h | h | h <;> subst h
      · rw [runQueue, processTask_w8_A]
        refine ih _ _ _ (by simp) ?_
        intro x hx
        simp only [List.mem_cons] at hx
        rcases hx with rfl | rfl | hx
        · exact Or.inr (Or.inr rfl)
        · exact Or.inl rfl
        · exact hrest x hx
      · rw [runQueue, processTask_w8_Ac]
        refine ih _ _ _ (by simp) ?_
        intro x hx
        simp only [List.mem_cons] at hx
        rcases hx with rfl | rfl | hx
        · exact Or.inr (Or.inr rfl)
        · exact Or.inr (Or.inl rfl)
        · exact hrest x hx
      · rw [runQueue, processTask_w8_Bc]
        refine ih _ _ _ (by simp) ?_
        intro x hx
        simp only [List.mem_cons] at hx
        rcases hx with rfl | rfl | hx
        · exact Or.inr (Or.inl rfl)
        · exact Or.inr (Or.inr rfl)
        · exact hrest x hx

/-- C8: the scheduling loop has no cycle detection — in the cyclic world
`w8` (building `A` or `A-1.0` always demands `B` with candidate `B-1.0`
discoverable, building `B-1.0` always demands `A` with candidate `A-1.0`
discoverable), the loop starting from queue `[A]` is still running after
any number of iterations: for every fuel bound the run ends only by
exhausting the bound, never by finishing or by a fatal error. -/
theorem scheduler_loops_on_cycle :
    ∀ fuel : Nat, ∃ q2 b2 e2,
      runQueue w8 {} [] fuel ["A"] [] [] = .outOfFuel q2 b2 e2 :=
  fun fuel =>
    runQueue_w8_outOfFuel fuel ["A"] [] [] (by simp)
      (by intro x hx; simp only [List.mem_cons, List.not_mem_nil, or_false] at hx
          exact Or.inl hx)

/-! ## C4, C5 and C10: the version-axis claims -/

theorem strLen26 : ("26" : String).length = 2 := rfl
theorem strLen27 : ("27" : String).length = 2 := rfl
theorem strLen33 : ("33" : String).length = 2 := rfl
theorem strLen34 : ("34" : String).length = 2 := rfl
theorem strLen16 : ("16" : String).length = 2 := rfl
theorem strLen17 : ("17" : String).length = 2 := rfl
theorem strLen18 : ("18" : String).length = 2 := rfl
theorem strLen19 : ("19" : String).length = 2 := rfl
theorem strLen310 : ("310" : String).length = 3 := rfl
theorem natRepr26 : Nat.repr 26 = "26" := rfl
theorem natRepr27 : Nat.repr 27 = "27" := rfl
theorem natRepr33 : Nat.repr 33 = "33" := rfl
theorem natRepr34 : Nat.repr 34 = "34" := rfl
theorem natRepr16 : Nat.repr 16 = "16" := rfl
theorem natRepr17 : Nat.repr 17 = "17" := rfl
theorem natRepr18 : Nat.repr 18 = "18" := rfl
theorem natRepr19 : Nat.repr 19 = "19" := rfl
theorem natRepr310 : Nat.repr 310 = "310" := rfl

/-- World for the C4 counterexample: one directory recipe `A` that
always builds, tests and uploads successfully. -/
def w4 : World where
  isfile := fun _ => false
  isdir := fun _ => true
  existsPath := fun _ => false
  cwdEntries := []
  yamlOk := fun _ => true
  fieldsOk := fun _ => true
  pkg_fn := fun d => d
  buildResult := fun _ _ => .ok
  testOk := fun _ => true

/-- C5: `['all']` for an axis with a known enumeration of N values
yields exactly N scheduler sub-runs, in enumeration order, each entered
with that single value written to the axis's config key (N = 4 for both
python and numpy); for the axes without an enumeration (perl, R) the
request is rejected with the `parser.error` before any sub-run is
entered (the call list is empty). -/
theorem all_sentinel_expansion :
    (versionLoop axisOrder { python := ["all"] } {} =
      { calls := [{ CONDA_PY := some 26 }, { CONDA_PY := some 27 },
                  { CONDA_PY := some 33 }, { CONDA_PY := some 34 }],
        cfg := { CONDA_PY := some 34 }, err := none })
    ∧ (versionLoop axisOrder { numpy := ["all"] } {} =
      { calls := [{ CONDA_NPY := some 16 }, { CONDA_NPY := some 17 },
                  { CONDA_NPY := some 18 }, { CONDA_NPY := some 19 }],
        cfg := { CONDA_NPY := some 19 }, err := none })
    ∧ (versionLoop axisOrder { python := ["all"] } {}).calls.length =
        ((all_versions .python).getD []).length
    ∧ (versionLoop axisOrder { numpy := ["all"] } {}).calls.length =
        ((all_versions .numpy).getD []).length
    ∧ (versionLoop axisOrder { perl := ["all"] } {} =
      { calls := [], cfg := {}, err := some (.parserError (allUnsupportedMsg .perl)) })
    ∧ (versionLoop axisOrder { R := ["all"] } {} =
      { calls := [], cfg := {}, err := some (.parserError (allUnsupportedMsg .R)) }) := by
  have hpy : versionLoop axisOrder { python := ["all"] } {} =
      { calls := [{ CONDA_PY := some 26 }, { CONDA_PY := some 27 },
                  { CONDA_PY := some 33 }, { CONDA_PY := some 34 }],
        cfg := { CONDA_PY := some 34 }, err := none } := by
    simp [versionLoop, versionSingle, subRuns, axisOrder, getAxisValues, setAxisValues,
      all_versions, truthyVersions, setConfigVersion, pyInt, stripDots, digitsToNat,
      natRepr26, natRepr27, natRepr33, natRepr34, strLen26, strLen27, strLen33, strLen34]
  have hnp : versionLoop axisOrder { numpy := ["all"] } {} =
      { calls := [{ CONDA_NPY := some 16 }, { CONDA_NPY := some 17 },
                  { CONDA_NPY := some 18 }, { CONDA_NPY := some 19 }],
        cfg := { CONDA_NPY := some 19 }, err := none } := by
    simp [versionLoop, versionSingle, subRuns, axisOrder, getAxisValues, setAxisValues,
      all_versions, truthyVersions, setConfigVersion, pyInt, stripDots, digitsToNat,
      natRepr16, natRepr17, natRepr18, natRepr19, strLen16, strLen17, strLen18, strLen19]
  refine ⟨hpy, hnp, by rw [hpy]; rfl, by rw [hnp]; rfl, ?_, ?_⟩
  · simp [versionLoop, versionSingle, axisOrder, getAxisValues, all_versions,
      truthyVersions]
  · simp [versionLoop, versionSingle, axisOrder, getAxisValues, all_versions,
      truthyVersions]

/-- C4 counterexample: with `--python 2.7 --python 3.10` and one recipe
`A`, the sub-run for `2.7` completes — the build of `A` happens — before
the width error for `3.10` aborts the invocation: a build attempt of the
invocation is made before the configuration error is reported. -/
theorem build_attempt_before_width_abort :
    executeFull w4 {} [] ["A"] 10 { python := ["2.7", "3.10"] } =
      ([({ CONDA_PY := some 27 },
         .finished ["A"] [Event.builtPkg "A", Event.tested "A", Event.uploadHandled "A"])],
       some (.config (.runtimeError (widthErrorMsg .python 310))))
    ∧ widthErrorMsg .python 310 = "CONDA_PY must be major.minor, like 3.4, not 310" := by
  constructor
  · have h1 : versionLoop axisOrder { python := ["2.7", "3.10"] } {} =
        { calls := [{ CONDA_PY := some 27 }], cfg := { CONDA_PY := some 310 },
          err := some (.runtimeError (widthErrorMsg .python 310)) } := by
      simp [versionLoop, versionSingle, subRuns, axisOrder, getAxisValues, setAxisValues,
        all_versions, truthyVersions, setConfigVersion, pyInt, stripDots, digitsToNat,
        natRepr27, natRepr310, strLen27, strLen310]
    have h2 : runQueue w4 {} [] 10 ["A"] [] [] =
        .finished ["A"] [Event.builtPkg "A", Event.tested "A", Event.uploadHandled "A"] := rfl
    simp [executeFull, execSubRuns, h1, h2]
  · rfl

/-- C4 amended: a two-digit-axis value whose dot-stripped numeral does
not print as exactly two digits makes the invocation abort with the
width `RuntimeError`; when the axis carries that single value the error
is raised before any scheduler sub-run is entered (no build attempt at
all), but when several values are supplied the sub-runs for the earlier
valid values run — and build — to completion first. -/
theorem width_error_aborts_single_value (v : String) (n : Nat)
    (hv : pyInt (stripDots v) = some n) (hw : (Nat.repr n).length ≠ 2) :
    versionLoop axisOrder { python := [v] } {} =
      { calls := [], cfg := { CONDA_PY := some n },
        err := some (.runtimeError (widthErrorMsg .python n)) }
    ∧ ∀ (w : World) (f : Flags) (index recipes : List String) (fuel : Nat),
        executeFull w f index recipes fuel { python := [v] } =
          ([], some (.config (.runtimeError (widthErrorMsg .python n)))) := by
  have hvne : v ≠ "all" := by
    intro h; subst h
    rw [show pyInt (stripDots "all") = none from rfl] at hv
    cases hv
  have h1 : versionLoop axisOrder { python := [v] } {} =
      { calls := [], cfg := { CONDA_PY := some n },
        err := some (.runtimeError (widthErrorMsg .python n)) } := by
    simp [versionLoop, versionSingle, axisOrder, getAxisValues, setAxisValues,
      all_versions, truthyVersions, setConfigVersion, hv, hvne, hw]
  refine ⟨h1, ?_⟩
  intro w f index recipes fuel
  simp [executeFull, execSubRuns, h1]

theorem width_error_aborts_single_value_witness :
    versionLoop axisOrder { python := ["3.10"] } {} =
      { calls := [], cfg := { CONDA_PY := some 310 },
        err := some (.runtimeError (widthErrorMsg .python 310)) }
    ∧ executeFull w4 {} [] ["A"] 10 { python := ["3.10"] } =
        ([], some (.config (.runtimeError (widthErrorMsg .python 310)))) :=
  ⟨(width_error_aborts_single_value "3.10" 310 (by decide) (by decide)).1,
   (width_error_aborts_single_value "3.10" 310 (by decide) (by decide)).2 w4 {} [] ["A"] 10⟩

/-- C10: the two-digit width check applies only to the python and numpy
axes — a single perl or R value is accepted with any digit count
provided its dot-stripped form is a decimal numeral (the value is
written to the axis config key and the scheduler runs once), while a
value whose dot-stripped form is not a numeral fails with the generic
`int()` conversion `ValueError`, not with the axis-specific width
`RuntimeError`. -/
theorem perl_R_axis_width_free :
    (∀ v n, v ≠ "all" → pyInt (stripDots v) = some n →
      versionLoop axisOrder { perl := [v] } {} =
        { calls := [{ CONDA_PERL := some n }], cfg := { CONDA_PERL := some n },
          err := none })
    ∧ (∀ v n, v ≠ "all" → pyInt (stripDots v) = some n →
      versionLoop axisOrder { R := [v] } {} =
        { calls := [{ CONDA_R := some n }], cfg := { CONDA_R := some n }, err := none })
    ∧ (∀ v, v ≠ "all" → pyInt (stripDots v) = none →
      versionLoop axisOrder { perl := [v] } {} =
        { calls := [], cfg := {}, err := some (.valueError (stripDots v)) })
    ∧ (∀ v, v ≠ "all" → pyInt (stripDots v) = none →
      versionLoop axisOrder { R := [v] } {} =
        { calls := [], cfg := {}, err := some (.valueError (stripDots v)) }) := by
  refine ⟨?_, ?_, ?_, ?_⟩ <;> intro v <;>
    first
    | (intro n hvne hv
       simp [versionLoop, versionSingle, axisOrder, getAxisValues, setAxisValues,
         all_versions, truthyVersions, setConfigVersion, hv, hvne])
    | (intro hvne hv
       simp [versionLoop, versionSingle, axisOrder, getAxisValues, setAxisValues,
         all_versions, truthyVersions, setConfigVersion, hv, hvne])

theorem perl_R_axis_width_free_witness :
    versionLoop axisOrder { perl := ["5.18.2"] } {} =
      { calls := [{ CONDA_PERL := some 5182 }], cfg := { CONDA_PERL := some 5182 },
        err := none }
    ∧ versionLoop axisOrder { R := ["abc"] } {} =
        { calls := [], cfg := {}, err := some (.valueError (stripDots "abc")) } :=
  ⟨perl_R_axis_width_free.1 "5.18.2" 5182 (by decide) (by decide),
   perl_R_axis_width_free.2.2.2 "abc" (by decide) (by decide)⟩

end CondaBuild
